import Mathlib

set_option autoImplicit false
set_option linter.unusedVariables false

/-
Verification development for the quasselcore connection-acceptance,
handshake, session-registry and storage-gate layer (src/core/core.cpp).

The embedding translates the C++ source into pure Lean functions:

* QVariant / QVariantMap are modelled as an inductive value type and an
  association list with QMap-like replace-on-insert semantics.
* Core is modelled as an explicit state record (CoreState); each member
  function of Core becomes a Lean function from CoreState to CoreState
  (plus its return value and, for message processing, the list of replies
  written to the socket and whether the socket was closed).
* Operations that in C++ dereference a pointer that may be null
  (storage->validateUser, sess->addClient on a null session) are modelled
  in the Except monad: Except.error marks a null-pointer dereference,
  i.e. undefined behaviour / a crash of the process.
* The storage backend itself (sqlitestorage.cpp) is an external
  collaborator: its init / setup / validateUser behaviour is carried as
  function-valued fields of the Storage record.  Because the backends own
  database is external state, the result of re-running init after a
  successful setup is carried as the separate field initAfterSetupF.
* Process-global constants (Global::coreNeedsProtocol, version strings)
  and per-socket TLS capability are carried in a CoreEnv record.
* Qt signal wiring, timers, threads and the TCP listener are not part of
  the claims under scrutiny and are not modelled; sess->start() and
  startListening() have no modelled effect on the modelled state.
-/

/-! ## QVariant and QVariantMap -/

inductive QVariant where
  | vnull
  | vstr (s : String)
  | vbool (b : Bool)
  | vuint (n : Nat)
  | vuser (u : Nat)
  | vlist (l : List QVariant)
  | vmap (m : List (String × QVariant))

abbrev QVariantMap := List (String × QVariant)

/-- QVariant::toString (the conversions used by core.cpp). -/
def QVariant.toQString : QVariant → String
  | .vstr s => s
  | .vuint n => toString n
  | .vbool b => if b then "true" else "false"
  | _ => ""

/-- QVariant::toUInt. -/
def QVariant.toUInt : QVariant → Nat
  | .vuint n => n
  | .vstr s => (s.toNat?).getD 0
  | .vbool b => if b then 1 else 0
  | _ => 0

/-- QVariant::toBool. -/
def QVariant.toQBool : QVariant → Bool
  | .vbool b => b
  | .vstr s => !(decide (s = "") || decide (s = "0") || decide (s = "false"))
  | .vuint n => decide (n ≠ 0)
  | _ => false

/-- QVariant::toMap. -/
def QVariant.toQMap : QVariant → QVariantMap
  | .vmap m => m
  | _ => []

/-- QVariant::toList. -/
def QVariant.toQList : QVariant → List QVariant
  | .vlist l => l
  | _ => []

/-- QVariant::value-of-UserId: a UserId stored in a variant, 0 otherwise. -/
def QVariant.toUserId : QVariant → Nat
  | .vuser u => u
  | _ => 0

/-- Comparison of a QVariant against a string literal, as in
`msg["MsgType"] == "ClientInit"`: true only for an equal string value. -/
def QVariant.eqStr : QVariant → String → Bool
  | .vstr a, s => decide (a = s)
  | _, _ => false

/-- QMap lookup: `m[k]` on a const map, default-constructed value if absent. -/
def qlookup (m : QVariantMap) (k : String) : QVariant :=
  match m with
  | [] => QVariant.vnull
  | (k', v) :: rest => if k' = k then v else qlookup rest k

/-- QMap::contains. -/
def qcontains (m : QVariantMap) (k : String) : Bool :=
  match m with
  | [] => false
  | (k', _) :: rest => decide (k' = k) || qcontains rest k

/-- QMap insert (`m[k] = v`): replaces an existing binding in place,
otherwise appends. -/
def qinsert (m : QVariantMap) (k : String) (v : QVariant) : QVariantMap :=
  match m with
  | [] => [(k, v)]
  | (k', v') :: rest => if k' = k then (k, v) :: rest else (k', v') :: qinsert rest k v

/-- QMap::take / remove: drops the binding for `k`. -/
def qremoveKey (m : QVariantMap) (k : String) : QVariantMap :=
  match m with
  | [] => []
  | (k', v') :: rest => if k' = k then qremoveKey rest k else (k', v') :: qremoveKey rest k

/-! ## Generic association maps (QHash keyed by socket id / UserId / name) -/

def alookup {κ : Type} {α : Type} [DecidableEq κ] (m : List (κ × α)) (k : κ) : Option α :=
  match m with
  | [] => none
  | (k', v) :: rest => if k' = k then some v else alookup rest k

def acontains {κ : Type} {α : Type} [DecidableEq κ] (m : List (κ × α)) (k : κ) : Bool :=
  match m with
  | [] => false
  | (k', _) :: rest => decide (k' = k) || acontains rest k

def ainsert {κ : Type} {α : Type} [DecidableEq κ] (m : List (κ × α)) (k : κ) (v : α) :
    List (κ × α) :=
  match m with
  | [] => [(k, v)]
  | (k', v') :: rest => if k' = k then (k, v) :: rest else (k', v') :: ainsert rest k v

def aremove {κ : Type} {α : Type} [DecidableEq κ] (m : List (κ × α)) (k : κ) :
    List (κ × α) :=
  match m with
  | [] => []
  | (k', v') :: rest => if k' = k then aremove rest k else (k', v') :: aremove rest k

/-! ## Data model: storage backends, sessions, core state -/

/-- A registered storage backend (Storage subclass instance).  Its database
is external state; `initF`, `setupF` and `validateUser` abstract the calls
into it.  `initAfterSetupF` is the result of calling init a second time
after a successful setup run (the bootstrap may have created the schema).
`sid` stands for the C++ object identity of the backend instance. -/
structure Storage where
  sid : Nat
  displayName : String
  description : String
  isAvailable : Bool
  initF : QVariantMap → Bool
  setupF : QVariantMap → Bool
  initAfterSetupF : QVariantMap → Bool
  validateUser : String → String → Nat
  addUser : String → String → Nat

/-- SessionThread: the per-user session object held in Core::sessions. -/
structure SessionThread where
  user : Nat
  restore : Bool
  clients : List Nat

/-- The mutable state of the Core singleton that the claims are about.
Sockets are identified by a Nat (the pointer identity). -/
structure CoreState where
  startTime : Nat
  storage : Option Storage
  configured : Bool
  storageBackends : List (String × Storage)
  sessions : List (Nat × SessionThread)
  blocksizes : List (Nat × Nat)
  clientInfo : List (Nat × QVariantMap)

/-- Process-global constants (common/global.cpp, not under src/) and the
per-connection TLS/compression capability bits computed in
processClientMessage; `now` is the wall-clock second count used for the
uptime display. -/
structure CoreEnv where
  coreNeedsProtocol : Nat
  protocolVersion : Nat
  quasselVersion : String
  quasselBuildDate : String
  startTimeString : String
  supportSsl : Bool
  supportsCompression : Bool
  now : Nat

/-! ## Storage handling (Core::registerStorageBackend, Core::initStorage) -/

/-- Core::registerStorageBackend: only available backends are registered. -/
def registerStorageBackend (st : CoreState) (backend : Storage) : Bool × CoreState :=
  if backend.isAvailable then
    (true, { st with storageBackends := ainsert st.storageBackends backend.displayName backend })
  else
    (false, st)

/-- Core::initStorage.  Returns the value of `configured` after the call
(the C++ function returns `configured = ...`).  On success every other
registered backend is discarded and the registry is cleared. -/
def initStorage (st : CoreState) (dbSettings : QVariantMap) (setup : Bool) :
    Bool × CoreState :=
  let backend := (qlookup dbSettings "Backend").toQString
  if backend = "" then
    (false, { st with configured := false })
  else
    match alookup st.storageBackends backend with
    | none =>
      -- "Selected storage backend is not available"
      (false, { st with configured := false })
    | some b =>
      -- storage = _storageBackends[backend];
      if !(b.initF dbSettings) && !(setup && b.setupF dbSettings && b.initAfterSetupF dbSettings) then
        -- "Could not init storage!"; storage = 0
        (false, { st with storage := none, configured := false })
      else
        -- delete all other backends; _storageBackends.clear()
        (true, { st with storage := some b, storageBackends := [], configured := true })

/-- Core::syncStorage (under the storage mutex; a null storage is checked). -/
def syncStorage (st : CoreState) : CoreState :=
  st

/-- Core::init.  `storageSettings` and `oldDbSettings` are what CoreSettings
reads from disk.  Listening-socket setup is outside the modelled state. -/
def coreInit (st : CoreState) (storageSettings oldDbSettings : QVariantMap) : CoreState :=
  let st0 := { st with configured := false }
  let r := initStorage st0 storageSettings false
  if r.1 then r.2
  else if 0 < oldDbSettings.length ∧ (qlookup oldDbSettings "Type").toQString.toUpper = "SQLITE" then
    (initStorage r.2 [("Backend", QVariant.vstr "SQLite")] false).2
  else r.2

/-- Core::setupCore.  Except.error marks the (unreachable on this path)
null-storage dereference of `storage->addUser`. -/
def setupCore (st : CoreState) (setupData0 : QVariant) : Except String (String × CoreState) :=
  let setupData := setupData0.toQMap
  let user := (qlookup setupData "AdminUser").toQString
  let password := (qlookup setupData "AdminPasswd").toQString
  let setupData := qremoveKey (qremoveKey setupData "AdminUser") "AdminPasswd"
  if user = "" ∨ password = "" then
    Except.ok ("Admin user or password not set.", st)
  else
    let r := initStorage st setupData true
    if !r.1 then
      Except.ok ("Could not setup storage!", r.2)
    else
      match r.2.storage with
      | none => Except.error "setupCore: storage->addUser called on null storage"
      | some b =>
        let _uid := b.addUser user password
        Except.ok ("", r.2)

/-! ## Session registry (createSession, setupClientSession, save/restore) -/

/-- Core::createSession: refuses to create a second session for a user. -/
def createSession (st : CoreState) (uid : Nat) (restore : Bool) :
    Option SessionThread × CoreState :=
  if acontains st.sessions uid then
    -- "Calling createSession() when a session for the user already exists!"
    (none, st)
  else
    let sess : SessionThread := { user := uid, restore := restore, clients := [] }
    (some sess, { st with sessions := ainsert st.sessions uid sess })

/-- SessionThread::addClient through the pointer stored in the registry. -/
def addClient (m : List (Nat × SessionThread)) (uid socket : Nat) :
    List (Nat × SessionThread) :=
  m.map (fun p => if p.1 = uid then (p.1, { p.2 with clients := p.2.clients ++ [socket] }) else p)

/-- Core::setupClientSession.  The C++ code closes the socket when the
session is null but then still calls sess->addClient(socket); the
Except.error branch marks that null dereference. -/
def setupClientSession (st : CoreState) (socket uid : Nat) : Except String CoreState :=
  let r : Option SessionThread × CoreState :=
    if acontains st.sessions uid then (alookup st.sessions uid, st)
    else createSession st uid false
  let st2 := { r.2 with blocksizes := aremove r.2.blocksizes socket,
                        clientInfo := aremove r.2.clientInfo socket }
  match r.1 with
  | none => Except.error "setupClientSession: sess->addClient called on null session"
  | some _ => Except.ok { st2 with sessions := addClient st2.sessions uid socket }

/-- Core::saveState: the CoreState record written to CoreSettings. -/
def saveState (st : CoreState) : QVariantMap :=
  let activeSessions := st.sessions.map (fun p => QVariant.vuser p.1)
  qinsert (qinsert [] "CoreStateVersion" (QVariant.vuint 1))
    "ActiveSessions" (QVariant.vlist activeSessions)

/-- Core::restoreState; `coreStateMap` is CoreSettings::coreState().toMap(). -/
def restoreState (st : CoreState) (coreStateMap : QVariantMap) : CoreState :=
  if !st.configured then
    st
  else if st.sessions.length ≠ 0 then
    -- "Calling restoreState() even though active sessions exist!"
    st
  else
    let activeSessions := (qlookup coreStateMap "ActiveSessions").toQList
    if 0 < activeSessions.length then
      activeSessions.foldl (fun s v => (createSession s v.toUserId true).2) st
    else st

/-! ## Handshake state machine (Core::processClientMessage) -/

/-- Zero-padded two-digit field, as in .arg(x, 2, 10, QChar of zero). -/
def pad2 (n : Nat) : String :=
  if n < 10 then "0" ++ toString n else toString n

/-- The CoreInfo uptime string of the init ack. -/
def coreInfoString (env : CoreEnv) (st : CoreState) : String :=
  let uptime := env.now - st.startTime
  let updays := uptime / 86400
  let uptime := uptime % 86400
  let uphours := uptime / 3600
  let uptime := uptime % 3600
  let upmins := uptime / 60
  "<b>Quassel Core Version " ++ env.quasselVersion ++ "</b><br>Built: "
    ++ env.quasselBuildDate ++ "<br>Up " ++ toString updays ++ "d" ++ pad2 uphours
    ++ "h" ++ pad2 upmins ++ "m (since " ++ env.startTimeString ++ ")"

/-- The negotiated protocol version of a ClientInit message: the explicit
ProtocolVersion field if present, else the legacy ClientBuild shim. -/
def negotiatedVer (msg : QVariantMap) : Nat :=
  let ver : Nat :=
    if qcontains msg "ProtocolVersion" = false ∧ 732 ≤ (qlookup msg "ClientBuild").toUInt
    then 1 else 0
  if qcontains msg "ProtocolVersion" then (qlookup msg "ProtocolVersion").toUInt else ver

/-- The Error text of the too-old rejection (tr with %1 substituted). -/
def tooOldError (env : CoreEnv) : String :=
  "<b>Your Quassel Client is too old!</b><br>This core needs at least client/core protocol version "
    ++ toString env.coreNeedsProtocol ++ ".<br>Please consider upgrading your client."

/-- The ClientInitReject reply for a too-old client. -/
def clientInitRejectReply (env : CoreEnv) : QVariantMap :=
  [("MsgType", QVariant.vstr "ClientInitReject"), ("Error", QVariant.vstr (tooOldError env))]

/-- The StorageBackends list advertised to an unconfigured client: one
descriptor per registered backend, DisplayName plus Description. -/
def storageBackendsVariant (backends : List (String × Storage)) : QVariant :=
  QVariant.vlist (backends.map (fun p =>
    QVariant.vmap [("DisplayName", QVariant.vstr p.2.displayName),
                   ("Description", QVariant.vstr p.2.description)]))

/-- The ClientInitAck reply, built field by field as in the source (note the
LoginEnabled binding set to true and overwritten with false when the core
is unconfigured). -/
def clientInitAckReply (env : CoreEnv) (st : CoreState) : QVariantMap :=
  let reply : QVariantMap := []
  let reply := qinsert reply "CoreVersion" (QVariant.vstr env.quasselVersion)
  let reply := qinsert reply "CoreDate" (QVariant.vstr env.quasselBuildDate)
  let reply := qinsert reply "CoreBuild" (QVariant.vuint 860)
  let reply := qinsert reply "ProtocolVersion" (QVariant.vuint env.protocolVersion)
  let reply := qinsert reply "CoreInfo" (QVariant.vstr (coreInfoString env st))
  let reply := qinsert reply "SupportSsl" (QVariant.vbool env.supportSsl)
  let reply := qinsert reply "SupportsCompression" (QVariant.vbool env.supportsCompression)
  let reply := qinsert reply "LoginEnabled" (QVariant.vbool true)
  let reply :=
    if !st.configured then
      let reply := qinsert reply "Configured" (QVariant.vbool false)
      let reply := qinsert reply "StorageBackends" (storageBackendsVariant st.storageBackends)
      qinsert reply "LoginEnabled" (QVariant.vbool false)
    else
      qinsert reply "Configured" (QVariant.vbool true)
  qinsert reply "MsgType" (QVariant.vstr "ClientInitAck")

/-- The not-initialized rejection sent to a socket that skipped ClientInit. -/
def notInitializedReply : QVariantMap :=
  [("MsgType", QVariant.vstr "ClientLoginReject"),
   ("Error", QVariant.vstr "<b>Client not initialized!</b><br>You need to send an init message before trying to login.")]

/-- The generic invalid-credentials rejection; a fixed payload independent
of whether the user is unknown or the password wrong. -/
def clientLoginRejectReply : QVariantMap :=
  [("MsgType", QVariant.vstr "ClientLoginReject"),
   ("Error", QVariant.vstr "<b>Invalid username or password!</b><br>The username/password combination you supplied could not be found in the database.")]

/-- The result of processing one framed message: the successor core state,
the replies written to the socket in order, and whether the socket was
closed during processing. -/
structure ProcResult where
  state : CoreState
  replies : List QVariantMap
  closed : Bool

/-- Core::processClientMessage.  Except.error marks a null-pointer
dereference (a crash of the process). -/
def processClientMessage (env : CoreEnv) (st : CoreState) (socket : Nat)
    (msg : QVariantMap) : Except String ProcResult :=
  if !(qcontains msg "MsgType") then
    -- "Antique client trying to connect... refusing."
    Except.ok ⟨st, [], true⟩
  else if (qlookup msg "MsgType").eqStr "ClientInit" then
    if negotiatedVer msg < env.coreNeedsProtocol then
      Except.ok ⟨st, [clientInitRejectReply env], true⟩
    else
      -- clientInfo[socket] = msg, then the ack; TLS and compression
      -- switching touch only the socket object, not the modelled state
      Except.ok ⟨{ st with clientInfo := ainsert st.clientInfo socket msg },
                 [clientInitAckReply env st], false⟩
  else
    if !(acontains st.clientInfo socket) then
      Except.ok ⟨st, [notInitializedReply], true⟩
    else if (qlookup msg "MsgType").eqStr "CoreSetupData" then
      match setupCore st (qlookup msg "SetupData") with
      | Except.error e => Except.error e
      | Except.ok r =>
        let reply : QVariantMap :=
          if r.1 ≠ "" then
            [("MsgType", QVariant.vstr "CoreSetupReject"), ("Error", QVariant.vstr r.1)]
          else
            [("MsgType", QVariant.vstr "CoreSetupAck")]
        Except.ok ⟨r.2, [reply], false⟩
    else if (qlookup msg "MsgType").eqStr "ClientLogin" then
      match st.storage with
      | none => Except.error "processClientMessage: storage->validateUser called on null storage"
      | some b =>
        let uid := b.validateUser (qlookup msg "User").toQString (qlookup msg "Password").toQString
        if uid = 0 then
          Except.ok ⟨st, [clientLoginRejectReply], false⟩
        else
          match setupClientSession st socket uid with
          | Except.error e => Except.error e
          | Except.ok st2 => Except.ok ⟨st2, [[("MsgType", QVariant.vstr "ClientLoginAck")]], false⟩
    else
      -- no matching MsgType branch: the message is silently dropped
      Except.ok ⟨st, [], false⟩

/-! ## Helper lemmas -/

theorem qcontains_of_eqStr {m : QVariantMap} {k s : String}
    (h : (qlookup m k).eqStr s = true) : qcontains m k = true := by
  induction m with
  | nil => simp [qlookup, QVariant.eqStr] at h
  | cons p rest ih =>
    simp only [qlookup, qcontains] at *
    by_cases hk : p.1 = k
    · simp [hk]
    · simp [hk] at h ⊢
      exact ih h

theorem QVariant.eqStr_ne {v : QVariant} {s t : String}
    (h : v.eqStr s = true) (hst : s ≠ t) : v.eqStr t = false := by
  cases v <;> simp [QVariant.eqStr] at h ⊢
  intro hvt
  rw [hvt] at h
  exact hst h.symm

theorem acontains_of_alookup {α : Type} {m : List (Nat × α)} {k : Nat} {v : α}
    (h : alookup m k = some v) : acontains m k = true := by
  induction m with
  | nil => simp [alookup] at h
  | cons p rest ih =>
    simp only [alookup, acontains] at *
    by_cases hk : p.1 = k
    · simp [hk]
    · simp [hk] at h ⊢
      exact ih h

theorem acontains_ainsert {α : Type} (m : List (Nat × α)) (k k' : Nat) (v : α) :
    acontains (ainsert m k v) k' = (decide (k' = k) || acontains m k') := by
  induction m with
  | nil => simp [ainsert, acontains, eq_comm]
  | cons p rest ih =>
    by_cases hk : p.1 = k
    · subst hk
      by_cases hk' : p.1 = k'
      · subst hk'
        simp [ainsert, acontains]
      · simp [ainsert, acontains, hk', ih, Ne.symm hk']
    · simp only [ainsert, acontains, if_neg hk, ih]
      by_cases hk' : p.1 = k'
      · simp [hk']
      · simp [hk']

theorem ainsert_keys_of_not_contained {α : Type} (m : List (Nat × α)) (k : Nat) (v : α)
    (h : acontains m k = false) :
    (ainsert m k v).map Prod.fst = m.map Prod.fst ++ [k] := by
  induction m with
  | nil => rfl
  | cons p rest ih =>
    simp only [acontains, Bool.or_eq_false_iff, decide_eq_false_iff_not] at h
    simp [ainsert, h.1, ih h.2]

theorem addClient_keys (m : List (Nat × SessionThread)) (uid socket : Nat) :
    (addClient m uid socket).map Prod.fst = m.map Prod.fst := by
  induction m with
  | nil => rfl
  | cons p rest ih =>
    by_cases hk : p.1 = uid
    · simp [addClient, hk] at ih ⊢
      exact ih
    · simp [addClient, hk] at ih ⊢
      exact ih

theorem alookup_addClient {m : List (Nat × SessionThread)} {uid : Nat} {s0 : SessionThread}
    (socket : Nat) (h : alookup m uid = some s0) :
    alookup (addClient m uid socket) uid
      = some { s0 with clients := s0.clients ++ [socket] } := by
  induction m with
  | nil => simp [alookup] at h
  | cons p rest ih =>
    obtain ⟨k, v⟩ := p
    by_cases hk : k = uid
    · subst hk
      have h2 : v = s0 := by simpa [alookup] using h
      subst h2
      simp only [addClient, List.map_cons, if_true]
      simp [alookup]
    · simp only [alookup, if_neg hk] at h
      simp only [addClient, List.map_cons] at ih ⊢
      rw [if_neg hk]
      simp only [alookup, if_neg hk]
      exact ih h

/-- The equivalence of the C1 invariant, as a computable predicate:
the active backend reference is non-null exactly when configured is set. -/
def storageInv (st : CoreState) : Bool :=
  st.storage.isSome == st.configured

theorem initStorage_fails_of_empty_registry (st : CoreState) (s : QVariantMap) (b : Bool)
    (hreg : st.storageBackends = []) :
    initStorage st s b = (false, { st with configured := false }) := by
  simp only [initStorage]
  split
  · rfl
  · rw [hreg]
    rfl

theorem initStorage_inv_of_none (st : CoreState) (s : QVariantMap) (b : Bool)
    (h : st.storage = none) :
    storageInv (initStorage st s b).2 = true ∧
    ((initStorage st s b).1 = false → (initStorage st s b).2.storage = none) := by
  simp only [initStorage, storageInv]
  split
  · simp [h]
  · split
    · simp [h]
    · split
      · simp
      · simp

theorem initStorage_success_clears (st : CoreState) (s : QVariantMap) (b : Bool)
    (h : (initStorage st s b).1 = true) :
    (initStorage st s b).2.storageBackends = [] ∧
    (initStorage st s b).2.configured = true ∧
    (initStorage st s b).2.storage.isSome = true := by
  simp only [initStorage] at h ⊢
  revert h
  split
  · intro h
    simp at h
  · split
    · intro h
      simp at h
    · split
      · intro h
        simp at h
      · intro h
        simp

/-! ## Concrete fixtures for witnesses and counterexamples -/

/-- A concrete SQLite-like backend instance: available, its init and setup
calls succeed on any settings map, credential validation always fails. -/
def sqliteB : Storage :=
  { sid := 1,
    displayName := "SQLite",
    description := "SQLite is a file-based database engine.",
    isAvailable := true,
    initF := fun _ => true,
    setupF := fun _ => true,
    initAfterSetupF := fun _ => true,
    validateUser := fun _ _ => 0,
    addUser := fun _ _ => 1 }

/-- An unconfigured core right after construction and a failed first-run
init: the SQLite backend is registered, no storage is active. -/
def freshCore : CoreState :=
  { startTime := 0, storage := none, configured := false,
    storageBackends := [("SQLite", sqliteB)],
    sessions := [], blocksizes := [], clientInfo := [] }

def sqliteSettings : QVariantMap := [("Backend", QVariant.vstr "SQLite")]

/-- The committed state reached by a successful initStorage from freshCore:
storage active, configured set, backend registry cleared by commitment. -/
def committedCore : CoreState := (initStorage freshCore sqliteSettings false).2

/-! ## C1 -/

/-- C1 (counterexample): the claim states that every operation, including
the failure paths of initStorage with an empty or unregistered backend
name, preserves "storage non-null iff configured".  From the reachable
committed state (obtained by a successful initStorage from the fresh
state, where the equivalence holds), the empty-backend-name failure path
of initStorage resets configured to false but leaves the active backend
reference non-null, breaking the equivalence. -/
theorem initStorage_breaks_storage_inv :
    (initStorage freshCore sqliteSettings false).1 = true ∧
    storageInv committedCore = true ∧
    (initStorage committedCore [] true).1 = false ∧
    storageInv (initStorage committedCore [] true).2 = false :=
  ⟨rfl, rfl, rfl, rfl⟩

/-- C1 (amended): the equivalence "storage non-null iff configured" is
established and preserved by initStorage, init and setupCore from every
state in which the storage reference is null and configured is false — in
particular along every failure path of initStorage, including an empty or
unregistered backend name.  Only the two early failure paths of
initStorage taken from a state with a non-null storage reference break
the equivalence (see the counterexample). -/
theorem storage_inv_from_null (st : CoreState)
    (hs : st.storage = none) (hc : st.configured = false)
    (dbSettings storageSettings oldDbSettings : QVariantMap) (setup : Bool)
    (setupData : QVariant) :
    storageInv (initStorage st dbSettings setup).2 = true ∧
    storageInv (coreInit st storageSettings oldDbSettings) = true ∧
    (∀ result st', setupCore st setupData = Except.ok (result, st') →
      storageInv st' = true) := by
  refine ⟨(initStorage_inv_of_none st dbSettings setup hs).1, ?_, ?_⟩
  · have h1 := initStorage_inv_of_none { st with configured := false } storageSettings false hs
    simp only [coreInit]
    by_cases hr : (initStorage { st with configured := false } storageSettings false).1 = true
    · simp [hr, h1.1]
    · have h2 := h1.2 (by simpa using hr)
      have h3 := initStorage_inv_of_none
        (initStorage { st with configured := false } storageSettings false).2
        [("Backend", QVariant.vstr "SQLite")] false h2
      simp only [Bool.not_eq_true] at hr
      rw [hr]
      simp only [Bool.false_eq_true, if_false]
      split
      · exact h3.1
      · exact h1.1
  · intro result st' hok
    simp only [setupCore] at hok
    split at hok
    · simp only [Except.ok.injEq, Prod.mk.injEq] at hok
      rw [← hok.2]
      simp [storageInv, hs, hc]
    · split at hok
      · simp only [Except.ok.injEq, Prod.mk.injEq] at hok
        rw [← hok.2]
        exact (initStorage_inv_of_none st _ true hs).1
      · split at hok
        · simp at hok
        · simp only [Except.ok.injEq, Prod.mk.injEq] at hok
          rw [← hok.2]
          exact (initStorage_inv_of_none st _ true hs).1

/-- C1 witness: the amended preservation applied to the fresh core. -/
theorem storage_inv_from_null_witness :
    freshCore.storage = none ∧ freshCore.configured = false ∧
    storageInv (initStorage freshCore sqliteSettings false).2 = true :=
  ⟨rfl, rfl, (storage_inv_from_null freshCore rfl rfl sqliteSettings sqliteSettings []
      false (QVariant.vmap [])).1⟩

/-! ## C3 -/

/-- C3 (counterexample): after the SQLite backend is committed, a setup
request naming a different backend fails as claimed, but it does not
leave the core state unchanged: the configured flag flips to false. -/
theorem second_backend_flips_configured :
    committedCore.configured = true ∧
    (initStorage committedCore [("Backend", QVariant.vstr "PostgreSQL")] true).1 = false ∧
    (initStorage committedCore [("Backend", QVariant.vstr "PostgreSQL")] true).2.configured
      = false :=
  ⟨rfl, rfl, rfl⟩

/-- C3 (amended): from a committed state (configured set; the backend
registry was cleared by commitment), any further initStorage request —
whatever backend it names — reports failure and leaves the active
backend, the backend registry, the session registry and the per-socket
bookkeeping unchanged, but resets the configured flag to false rather
than leaving it untouched. -/
theorem initStorage_after_commit_clean_failure (st : CoreState) (s : QVariantMap) (b : Bool)
    (hconf : st.configured = true) (hreg : st.storageBackends = []) :
    initStorage st s b = (false, { st with configured := false }) :=
  initStorage_fails_of_empty_registry st s b hreg

/-- C3 witness. -/
theorem initStorage_after_commit_clean_failure_witness :
    committedCore.configured = true ∧ committedCore.storageBackends = [] ∧
    initStorage committedCore [("Backend", QVariant.vstr "PostgreSQL")] true
      = (false, { committedCore with configured := false }) :=
  ⟨rfl, rfl, initStorage_after_commit_clean_failure committedCore
      [("Backend", QVariant.vstr "PostgreSQL")] true rfl rfl⟩

/-! ## C4 -/

/-- C4 (counterexample): a first initStorage call with valid SQLite
settings succeeds, but the claimed idempotent retry fails: the second
call with the very same settings returns false, because commitment
discarded every candidate from the backend registry. -/
theorem initStorage_retry_fails_concrete :
    (initStorage freshCore sqliteSettings false).1 = true ∧
    (initStorage (initStorage freshCore sqliteSettings false).2 sqliteSettings false).1
      = false :=
  ⟨rfl, rfl⟩

/-- C4 (amended): after any successful initStorage call, a second call
with the same settings (indeed with any settings) fails instead of
succeeding again: the commit cleared the backend registry, so the lookup
of the backend name no longer finds it.  The second call leaves the
active backend pointer unchanged and resets configured to false. -/
theorem initStorage_retry_fails (st : CoreState) (s : QVariantMap) (b b2 : Bool)
    (h : (initStorage st s b).1 = true) :
    initStorage (initStorage st s b).2 s b2
      = (false, { (initStorage st s b).2 with configured := false }) :=
  initStorage_fails_of_empty_registry (initStorage st s b).2 s b2
    (initStorage_success_clears st s b h).1

/-- C4 witness. -/
theorem initStorage_retry_fails_witness :
    (initStorage freshCore sqliteSettings false).1 = true ∧
    initStorage (initStorage freshCore sqliteSettings false).2 sqliteSettings false
      = (false, { (initStorage freshCore sqliteSettings false).2 with configured := false }) :=
  ⟨rfl, initStorage_retry_fails freshCore sqliteSettings false false rfl⟩

/-! ## Shared message and environment fixtures -/

/-- Global constants as a concrete environment: minimum protocol 10. -/
def testEnv : CoreEnv :=
  { coreNeedsProtocol := 10, protocolVersion := 10, quasselVersion := "0.3.0",
    quasselBuildDate := "Oct 11 2008", startTimeString := "Sat Oct 11 2008",
    supportSsl := false, supportsCompression := true, now := 90061 }

/-- A ClientInit message declaring protocol version 10. -/
def initMsg : QVariantMap :=
  [("MsgType", QVariant.vstr "ClientInit"), ("ProtocolVersion", QVariant.vuint 10)]

/-- A ClientInit message declaring protocol version 5, below the minimum. -/
def oldInitMsg : QVariantMap :=
  [("MsgType", QVariant.vstr "ClientInit"), ("ProtocolVersion", QVariant.vuint 5)]

/-- A ClientLogin message. -/
def loginMsg : QVariantMap :=
  [("MsgType", QVariant.vstr "ClientLogin"),
   ("User", QVariant.vstr "admin"), ("Password", QVariant.vstr "pw")]

/-! ## C2 -/

/-- C2 (code bug evaluation): a socket completes the init exchange on an
unconfigured core (storage null; the init ack advertised LoginEnabled
false) and then sends ClientLogin.  processClientMessage reaches
storage->validateUser on the null storage pointer — the crash outcome —
instead of ending with a rejection reply and/or a close of that socket
only.  (The matching slip in setupClientSession is the missing return
after socket->close() in the null-session branch, modelled by the
Except.error branch of setupClientSession.) -/
theorem unconfigured_login_crashes :
    (processClientMessage testEnv freshCore 3 initMsg).bind
        (fun r => processClientMessage testEnv r.state 3 loginMsg)
      = Except.error "processClientMessage: storage->validateUser called on null storage" :=
  rfl

/-! ## C5 -/

/-- C5: the session registry keeps at most one live Session per UserId:
createSession for a user who already has a session logs the error and
returns the null-equivalent without touching the state, and
setupClientSession for an already-registered user attaches the socket to
the existing session without creating a second one — the key set of the
registry is unchanged and the entry for this user is the old session
with the socket appended to its client list. -/
theorem session_per_user_unique (st : CoreState) (uid socket : Nat) (r : Bool)
    (s0 : SessionThread) (h : alookup st.sessions uid = some s0) :
    createSession st uid r = (none, st) ∧
    setupClientSession st socket uid =
      Except.ok { st with blocksizes := aremove st.blocksizes socket,
                          clientInfo := aremove st.clientInfo socket,
                          sessions := addClient st.sessions uid socket } ∧
    (addClient st.sessions uid socket).map Prod.fst = st.sessions.map Prod.fst ∧
    alookup (addClient st.sessions uid socket) uid
      = some { s0 with clients := s0.clients ++ [socket] } := by
  have hc : acontains st.sessions uid = true := acontains_of_alookup h
  refine ⟨?_, ?_, addClient_keys st.sessions uid socket, alookup_addClient socket h⟩
  · simp [createSession, hc]
  · simp [setupClientSession, hc, h]

/-- A session registered for user 7 with one attached client socket. -/
def aliceSession : SessionThread := { user := 7, restore := false, clients := [2] }

/-- A configured core with one live session and one pre-auth socket. -/
def sessionCore : CoreState :=
  { freshCore with
    storage := some sqliteB, configured := true, storageBackends := [],
    sessions := [(7, aliceSession)], blocksizes := [(4, 0)],
    clientInfo := [(4, initMsg)] }

/-- C5 witness. -/
theorem session_per_user_unique_witness :
    alookup sessionCore.sessions 7 = some aliceSession ∧
    createSession sessionCore 7 false = (none, sessionCore) ∧
    alookup (addClient sessionCore.sessions 7 4) 7
      = some { aliceSession with clients := aliceSession.clients ++ [4] } :=
  ⟨rfl, (session_per_user_unique sessionCore 7 4 false aliceSession rfl).1,
    (session_per_user_unique sessionCore 7 4 false aliceSession rfl).2.2.2⟩

/-! ## C6 -/

/-- C6: a ClientInit whose negotiated version (the ProtocolVersion field
if present, else the legacy ClientBuild shim) is below coreNeedsProtocol
is answered with a ClientInitReject carrying an Error string and the
socket is closed; the core state is unchanged, so the socket is never
handed off to a session and no ClientInitAck is sent. -/
theorem too_old_client_rejected (env : CoreEnv) (st : CoreState) (socket : Nat)
    (msg : QVariantMap)
    (hinit : (qlookup msg "MsgType").eqStr "ClientInit" = true)
    (hver : negotiatedVer msg < env.coreNeedsProtocol) :
    processClientMessage env st socket msg
      = Except.ok ⟨st, [clientInitRejectReply env], true⟩ ∧
    qlookup (clientInitRejectReply env) "Error" = QVariant.vstr (tooOldError env) ∧
    (qlookup (clientInitRejectReply env) "MsgType").eqStr "ClientInitReject" = true := by
  have hc : qcontains msg "MsgType" = true := qcontains_of_eqStr hinit
  refine ⟨?_, rfl, rfl⟩
  simp [processClientMessage, hc, hinit, hver]

/-- C6 witness: ProtocolVersion 5 against minimum 10. -/
theorem too_old_client_rejected_witness :
    (qlookup oldInitMsg "MsgType").eqStr "ClientInit" = true ∧
    negotiatedVer oldInitMsg < testEnv.coreNeedsProtocol ∧
    processClientMessage testEnv freshCore 3 oldInitMsg
      = Except.ok ⟨freshCore, [clientInitRejectReply testEnv], true⟩ :=
  ⟨rfl, by decide, (too_old_client_rejected testEnv freshCore 3 oldInitMsg rfl (by decide)).1⟩

/-! ## C7 -/

/-- The literal shape of the init ack built for an unconfigured core. -/
theorem clientInitAckReply_unconfigured (env : CoreEnv) (st : CoreState)
    (h : st.configured = false) :
    clientInitAckReply env st =
      [("CoreVersion", QVariant.vstr env.quasselVersion),
       ("CoreDate", QVariant.vstr env.quasselBuildDate),
       ("CoreBuild", QVariant.vuint 860),
       ("ProtocolVersion", QVariant.vuint env.protocolVersion),
       ("CoreInfo", QVariant.vstr (coreInfoString env st)),
       ("SupportSsl", QVariant.vbool env.supportSsl),
       ("SupportsCompression", QVariant.vbool env.supportsCompression),
       ("LoginEnabled", QVariant.vbool false),
       ("Configured", QVariant.vbool false),
       ("StorageBackends", storageBackendsVariant st.storageBackends),
       ("MsgType", QVariant.vstr "ClientInitAck")] := by
  simp only [clientInitAckReply, h]
  rfl

/-- C7 (amended): every ClientInit accepted while the core is unconfigured
is answered with a ClientInitAck whose Configured field is false, whose
LoginEnabled field is false, and whose StorageBackends list has exactly
one entry per registered backend, carrying that backend displayName and
description.  The list is non-empty whenever the backend registry is
non-empty — true in every state in which no backend has been committed,
but not after a commit followed by a failed reconfiguration, since
commitment clears the registry (see the counterexample). -/
theorem unconfigured_init_ack (env : CoreEnv) (st : CoreState) (socket : Nat)
    (msg : QVariantMap)
    (hinit : (qlookup msg "MsgType").eqStr "ClientInit" = true)
    (hver : ¬ negotiatedVer msg < env.coreNeedsProtocol)
    (hconf : st.configured = false)
    (hne : st.storageBackends ≠ []) :
    processClientMessage env st socket msg
      = Except.ok ⟨{ st with clientInfo := ainsert st.clientInfo socket msg },
                   [clientInitAckReply env st], false⟩ ∧
    qlookup (clientInitAckReply env st) "MsgType" = QVariant.vstr "ClientInitAck" ∧
    qlookup (clientInitAckReply env st) "Configured" = QVariant.vbool false ∧
    qlookup (clientInitAckReply env st) "LoginEnabled" = QVariant.vbool false ∧
    qlookup (clientInitAckReply env st) "StorageBackends"
      = storageBackendsVariant st.storageBackends ∧
    storageBackendsVariant st.storageBackends ≠ QVariant.vlist [] := by
  have hc : qcontains msg "MsgType" = true := qcontains_of_eqStr hinit
  have hrep := clientInitAckReply_unconfigured env st hconf
  refine ⟨?_, ?_, ?_, ?_, ?_, ?_⟩
  · simp [processClientMessage, hc, hinit, hver]
  · rw [hrep]
    rfl
  · rw [hrep]
    rfl
  · rw [hrep]
    rfl
  · rw [hrep]
    rfl
  · intro hcontra
    simp only [storageBackendsVariant, QVariant.vlist.injEq] at hcontra
    exact hne (List.map_eq_nil_iff.mp hcontra)

/-- First-run setup message committing the SQLite backend. -/
def setupMsgSqlite : QVariantMap :=
  [("MsgType", QVariant.vstr "CoreSetupData"),
   ("SetupData", QVariant.vmap
      [("AdminUser", QVariant.vstr "admin"), ("AdminPasswd", QVariant.vstr "pw"),
       ("Backend", QVariant.vstr "SQLite")])]

/-- A later setup message naming a backend that is not registered. -/
def setupMsgPostgres : QVariantMap :=
  [("MsgType", QVariant.vstr "CoreSetupData"),
   ("SetupData", QVariant.vmap
      [("AdminUser", QVariant.vstr "admin"), ("AdminPasswd", QVariant.vstr "pw"),
       ("Backend", QVariant.vstr "PostgreSQL")])]

/-- Four messages on one socket: init, successful setup (commits SQLite
and clears the registry), failed second setup (resets configured), then
a second init on the now again unconfigured core. -/
def reSetupRun : Except String ProcResult :=
  (processClientMessage testEnv freshCore 3 initMsg).bind (fun r1 =>
  (processClientMessage testEnv r1.state 3 setupMsgSqlite).bind (fun r2 =>
  (processClientMessage testEnv r2.state 3 setupMsgPostgres).bind (fun r3 =>
  processClientMessage testEnv r3.state 3 initMsg)))

/-- The init ack sent for the final message of reSetupRun. -/
def reSetupFinalReply : QVariantMap :=
  match reSetupRun with
  | Except.ok r => r.replies.headD []
  | Except.error _ => []

/-- C7 (counterexample): the claim requires a non-empty StorageBackends
list in every accepted unconfigured init ack.  In the reachable state
after a commit and a failed reconfiguration the core is unconfigured but
its backend registry is empty, and the accepted init ack carries an
empty StorageBackends list. -/
theorem unconfigured_init_ack_empty_backends :
    qlookup reSetupFinalReply "MsgType" = QVariant.vstr "ClientInitAck" ∧
    qlookup reSetupFinalReply "Configured" = QVariant.vbool false ∧
    qlookup reSetupFinalReply "LoginEnabled" = QVariant.vbool false ∧
    qlookup reSetupFinalReply "StorageBackends" = QVariant.vlist [] :=
  ⟨rfl, rfl, rfl, rfl⟩

/-- C7 witness: the amended statement on the fresh unconfigured core. -/
theorem unconfigured_init_ack_witness :
    (qlookup initMsg "MsgType").eqStr "ClientInit" = true ∧
    (¬ negotiatedVer initMsg < testEnv.coreNeedsProtocol) ∧
    freshCore.configured = false ∧ freshCore.storageBackends ≠ [] ∧
    qlookup (clientInitAckReply testEnv freshCore) "Configured" = QVariant.vbool false ∧
    qlookup (clientInitAckReply testEnv freshCore) "LoginEnabled" = QVariant.vbool false ∧
    storageBackendsVariant freshCore.storageBackends ≠ QVariant.vlist [] :=
  ⟨rfl, by decide, rfl, by simp [freshCore],
    (unconfigured_init_ack testEnv freshCore 3 initMsg rfl (by decide) rfl
      (by simp [freshCore])).2.2.1,
    (unconfigured_init_ack testEnv freshCore 3 initMsg rfl (by decide) rfl
      (by simp [freshCore])).2.2.2.1,
    (unconfigured_init_ack testEnv freshCore 3 initMsg rfl (by decide) rfl
      (by simp [freshCore])).2.2.2.2.2⟩

/-! ## C8 -/

/-- C8: whenever backend credential validation fails — wrong password for
an existing user and unknown username alike — processClientMessage sends
the same fixed rejection payload clientLoginRejectReply and leaves the
core state untouched and the socket open: the rejection bytes do not
depend on which of the two inputs caused the failure. -/
theorem login_reject_uniform (env : CoreEnv) (st : CoreState) (socket1 socket2 : Nat)
    (msg1 msg2 : QVariantMap) (b : Storage)
    (hs : st.storage = some b)
    (hi1 : acontains st.clientInfo socket1 = true)
    (hi2 : acontains st.clientInfo socket2 = true)
    (h1 : (qlookup msg1 "MsgType").eqStr "ClientLogin" = true)
    (h2 : (qlookup msg2 "MsgType").eqStr "ClientLogin" = true)
    (hv1 : b.validateUser (qlookup msg1 "User").toQString
        (qlookup msg1 "Password").toQString = 0)
    (hv2 : b.validateUser (qlookup msg2 "User").toQString
        (qlookup msg2 "Password").toQString = 0) :
    processClientMessage env st socket1 msg1
      = Except.ok ⟨st, [clientLoginRejectReply], false⟩ ∧
    processClientMessage env st socket2 msg2
      = Except.ok ⟨st, [clientLoginRejectReply], false⟩ := by
  have hc1 : qcontains msg1 "MsgType" = true := qcontains_of_eqStr h1
  have hc2 : qcontains msg2 "MsgType" = true := qcontains_of_eqStr h2
  have hn1 := QVariant.eqStr_ne h1 (show "ClientLogin" ≠ "ClientInit" by decide)
  have hm1 := QVariant.eqStr_ne h1 (show "ClientLogin" ≠ "CoreSetupData" by decide)
  have hn2 := QVariant.eqStr_ne h2 (show "ClientLogin" ≠ "ClientInit" by decide)
  have hm2 := QVariant.eqStr_ne h2 (show "ClientLogin" ≠ "CoreSetupData" by decide)
  constructor
  · simp [processClientMessage, hc1, hn1, hm1, hi1, h1, hs, hv1]
  · simp [processClientMessage, hc2, hn2, hm2, hi2, h2, hs, hv2]

/-- Login with an existing username and a wrong password. -/
def wrongPassMsg : QVariantMap :=
  [("MsgType", QVariant.vstr "ClientLogin"),
   ("User", QVariant.vstr "alice"), ("Password", QVariant.vstr "wrong")]

/-- Login with an unknown username. -/
def unknownUserMsg : QVariantMap :=
  [("MsgType", QVariant.vstr "ClientLogin"),
   ("User", QVariant.vstr "nobody"), ("Password", QVariant.vstr "secret")]

/-- C8 witness: both rejections evaluate to the same payload. -/
theorem login_reject_uniform_witness :
    sessionCore.storage = some sqliteB ∧
    acontains sessionCore.clientInfo 4 = true ∧
    processClientMessage testEnv sessionCore 4 wrongPassMsg
      = Except.ok ⟨sessionCore, [clientLoginRejectReply], false⟩ ∧
    processClientMessage testEnv sessionCore 4 unknownUserMsg
      = Except.ok ⟨sessionCore, [clientLoginRejectReply], false⟩ :=
  ⟨rfl, rfl,
    (login_reject_uniform testEnv sessionCore 4 4 wrongPassMsg unknownUserMsg sqliteB
      rfl rfl rfl rfl rfl rfl rfl).1,
    (login_reject_uniform testEnv sessionCore 4 4 wrongPassMsg unknownUserMsg sqliteB
      rfl rfl rfl rfl rfl rfl rfl).2⟩

/-! ## C9 -/

/-- Restoring a saved session list creates exactly the listed users:
folding createSession over the saved UserId variants appends precisely
those keys to the registry, provided they are fresh and distinct. -/
theorem restore_fold_keys (ps : List (Nat × SessionThread)) :
    ∀ st : CoreState, (ps.map Prod.fst).Nodup →
      (∀ u ∈ ps.map Prod.fst, acontains st.sessions u = false) →
      (((ps.map (fun p => QVariant.vuser p.1)).foldl
          (fun s v => (createSession s v.toUserId true).2) st).sessions).map Prod.fst
        = st.sessions.map Prod.fst ++ ps.map Prod.fst := by
  induction ps with
  | nil =>
    intro st _ _
    simp
  | cons p rest ih =>
    intro st hnd hdis
    have hu : acontains st.sessions p.1 = false := hdis p.1 (by simp)
    have hstep : (createSession st (QVariant.toUserId (QVariant.vuser p.1)) true).2
        = { st with sessions := ainsert st.sessions p.1 ⟨p.1, true, []⟩ } := by
      simp [createSession, QVariant.toUserId, hu]
    simp only [List.map_cons, List.foldl_cons, hstep]
    rw [ih _ (List.nodup_cons.mp hnd).2 ?fresh]
    case fresh =>
      intro u' hu'
      rw [acontains_ainsert]
      have hne : u' ≠ p.1 := fun he => (List.nodup_cons.mp hnd).1 (he ▸ hu')
      simp [hne, hdis u' (List.mem_cons_of_mem p.1 hu')]
    · simp [ainsert_keys_of_not_contained st.sessions p.1 _ hu]

/-- C9: CoreState saving and restoring round-trips exactly: restoring the
record saved from a state with live sessions, on a configured restart
state with no sessions yet, recreates sessions for exactly the saved
UserIds — no duplicates, none missing, none extra; and restoreState
creates nothing when the core is unconfigured or when sessions already
exist. -/
theorem core_state_round_trip (stSave stNew : CoreState)
    (hnd : (stSave.sessions.map Prod.fst).Nodup)
    (hconf : stNew.configured = true) (hempty : stNew.sessions = []) :
    ((restoreState stNew (saveState stSave)).sessions).map Prod.fst
      = stSave.sessions.map Prod.fst ∧
    (∀ (st : CoreState) (saved : QVariantMap),
      st.configured = false → restoreState st saved = st) ∧
    (∀ (st : CoreState) (saved : QVariantMap),
      st.sessions ≠ [] → restoreState st saved = st) := by
  refine ⟨?_, ?_, ?_⟩
  · have hdis : ∀ u ∈ stSave.sessions.map Prod.fst, acontains stNew.sessions u = false := by
      intro u _
      rw [hempty]
      rfl
    have hfold := restore_fold_keys stSave.sessions stNew hnd hdis
    have hlist : (qlookup (saveState stSave) "ActiveSessions").toQList
        = stSave.sessions.map (fun p => QVariant.vuser p.1) := rfl
    simp only [restoreState, hconf, Bool.not_true, Bool.false_eq_true, if_false, hempty,
      List.length_nil, ne_eq, not_true_eq_false, hlist]
    split
    · rw [hfold, hempty]
      simp
    · rename_i hlen
      have hnil : stSave.sessions = [] := by
        simpa using Nat.eq_zero_of_not_pos hlen
      rw [hempty, hnil]
  · intro st saved hc
    simp [restoreState, hc]
  · intro st saved hne
    rcases h : st.sessions with _ | ⟨q, qs⟩
    · exact absurd h hne
    · simp [restoreState, h]

/-- A second live session for the round-trip witness. -/
def bobSession : SessionThread := { user := 9, restore := false, clients := [] }

/-- A configured core with two live sessions, about to be shut down. -/
def savedCore : CoreState :=
  { sessionCore with sessions := [(7, aliceSession), (9, bobSession)] }

/-- A configured core at restart, before any session exists. -/
def rebootCore : CoreState :=
  { freshCore with
    storage := some sqliteB, configured := true, storageBackends := [] }

/-- C9 witness: sessions for users 7 and 9 survive the round trip. -/
theorem core_state_round_trip_witness :
    (savedCore.sessions.map Prod.fst).Nodup ∧
    rebootCore.configured = true ∧ rebootCore.sessions = [] ∧
    ((restoreState rebootCore (saveState savedCore)).sessions).map Prod.fst
      = savedCore.sessions.map Prod.fst :=
  ⟨by decide, rfl, rfl,
    (core_state_round_trip savedCore rebootCore (by decide) rfl rfl).1⟩

/-! ## C10 -/

/-- C10: a framed message from an initialized socket whose MsgType is none
of ClientInit, CoreSetupData and ClientLogin is silently ignored: no
reply is sent, the socket stays open, and the core state — configured
flag, active backend, session registry, per-socket bookkeeping — is
entirely unchanged. -/
theorem unknown_msgtype_ignored (env : CoreEnv) (st : CoreState) (socket : Nat)
    (msg : QVariantMap)
    (hm : qcontains msg "MsgType" = true)
    (h1 : (qlookup msg "MsgType").eqStr "ClientInit" = false)
    (h2 : (qlookup msg "MsgType").eqStr "CoreSetupData" = false)
    (h3 : (qlookup msg "MsgType").eqStr "ClientLogin" = false)
    (hinit : acontains st.clientInfo socket = true) :
    processClientMessage env st socket msg = Except.ok ⟨st, [], false⟩ := by
  simp [processClientMessage, hm, h1, h2, h3, hinit]

/-- A framed message with an unhandled MsgType. -/
def heartbeatMsg : QVariantMap := [("MsgType", QVariant.vstr "Heartbeat")]

/-- C10 witness. -/
theorem unknown_msgtype_ignored_witness :
    qcontains heartbeatMsg "MsgType" = true ∧
    acontains sessionCore.clientInfo 4 = true ∧
    processClientMessage testEnv sessionCore 4 heartbeatMsg
      = Except.ok ⟨sessionCore, [], false⟩ :=
  ⟨rfl, rfl, unknown_msgtype_ignored testEnv sessionCore 4 heartbeatMsg rfl rfl rfl rfl rfl⟩
